import Mathlib

/-!
Shallow embedding of the wx-cache-read media pipeline.

The definitions below are translated from the Python sources:
  * `src/ui/main_window.py`   — `SaveThread` (the file-transfer engine),
  * `src/utils/wechat_parser.py` — `WeChatParser` (path resolution, DB-backed
    ordering, filesystem discovery, sanitised saving),
  * `src/utils/archive_parser.py` — `ArchiveParser` (format detection, archive
    media discovery and ordering).

Filesystem and OS interaction is modelled by explicit state/oracle parameters:
the outcome of each effectful call (does a path exist, what does a read return,
does a write succeed) is an input to the Lean function, and the branching on
those outcomes is transcribed from the Python control flow.
-/

namespace WxCache

/-! ## Python string primitives -/

/-- The characters replaced by `re.sub(r'[\\/*?:"<>|]', '_', ...)` in
`_get_safe_filename` (wechat_parser.py:802, archive_parser.py:414,
main_window.py:2570). -/
def illegalChar (c : Char) : Bool :=
  c = '\\' || c = '/' || c = '*' || c = '?' || c = ':' || c = '"' ||
  c = '<' || c = '>' || c = '|'

/-- `re.sub(r'[\\/*?:"<>|]', '_', filename)`: each illegal character is
replaced by an underscore (a character-class substitution is a per-character
map). -/
def pySanitize (s : String) : String :=
  String.mk (s.data.map (fun c => if illegalChar c then '_' else c))

/-- Does `hay` start with `needle`? (`str.startswith` / prefix test used to
model Python's `in` operator below). -/
def listStarts : List Char → List Char → Bool
  | _, [] => true
  | [], _ :: _ => false
  | h :: t, n :: m => h = n && listStarts t m

/-- `str.startswith` for strings. -/
def strStarts (s pre : String) : Bool := listStarts s.data pre.data

/-- ASCII lower-casing of one character (`str.lower`; every string the
sources lower-case is ASCII). -/
def pyCharLower (c : Char) : Char :=
  if 'A' ≤ c && c ≤ 'Z' then Char.ofNat (c.toNat + 32) else c

/-- `s.lower()`. -/
def pyLower (s : String) : String := String.mk (s.data.map pyCharLower)

/-- Python's substring operator `needle in hay` on lists of characters. -/
def listContainsSub (needle : List Char) : List Char → Bool
  | [] => listStarts [] needle
  | h :: t => listStarts (h :: t) needle || listContainsSub needle t

/-- Python's `needle in hay` for strings. -/
def strContainsSub (hay needle : String) : Bool :=
  listContainsSub needle.data hay.data

/-- `s.replace("\\", "/")` (a one-character substitution). -/
def pyReplaceBS (s : String) : String :=
  String.mk (s.data.map (fun c => if c = '\\' then '/' else c))

/-- `str(i).zfill(w)` for a non-negative number string: left-pad with `'0'` to
width `w`. -/
def pyZfill (s : String) (w : Nat) : String :=
  if s.length < w then String.mk (List.replicate (w - s.length) '0') ++ s else s

/-- `os.path.splitext` (CPython `genericpath._splitext` with sep `'\\'` and
altsep `'/'`): split off the extension at the last dot of the last path
component, unless every character of that component before the dot is itself a
dot (so `".bashrc"` has no extension).  Windows drive letters are not modelled
(no input in this development carries one). -/
def pySplitext (p : String) : String × String :=
  let cs := p.data
  let basRev := cs.reverse.takeWhile (fun c => !(c = '/' || c = '\\'))
  let dirLen := cs.length - basRev.length
  match basRev.findIdx? (· = '.') with
  | none => (p, "")
  | some k =>
      let dotPos := cs.length - 1 - k
      if ((cs.drop dirLen).take (dotPos - dirLen)).any (fun c => c ≠ '.') then
        (String.mk (cs.take dotPos), String.mk (cs.drop dotPos))
      else (p, "")

/-- `os.path.basename` (ntpath): the part after the last `'\\'` or `'/'`.
Drive letters are not modelled. -/
def pyBasename (s : String) : String :=
  String.mk ((s.data.reverse.takeWhile (fun c => !(c = '/' || c = '\\'))).reverse)

/-- `path.rstrip('\\/')` as done in `WeChatParser.__init__`
(wechat_parser.py:28). -/
def rstripSlashes (s : String) : String :=
  String.mk ((s.data.reverse.dropWhile (fun c => c = '/' || c = '\\')).reverse)

/-- Numeric value of a run of ASCII digits (`int(...)` on the matched group;
the sources only ever match `\d+` runs). -/
def digitsVal (cs : List Char) : Nat :=
  cs.foldl (fun a c => a * 10 + (c.toNat - '0'.toNat)) 0

/-! ## `SaveThread` — the file-transfer engine (main_window.py) -/

/-- One element of `self.files`: the dict keys the save loops read
(`file_info['name']`, `file_info['path']`). -/
structure FileInfo where
  name : String
  path : String
deriving DecidableEq, Repr

/-- Environment outcome of processing one entry of the save loop
(`save_files_directly` / `save_files_with_archive_parser`):
* `srcMissing`  — `os.path.exists(file_path)` was false (line 2470);
* `ioError`     — the `try` block raised (read or write failed, line 2507);
* `writtenGone` — the write returned but `os.path.exists(target_path)` was
  false at post-write verification (line 2503);
* `written size` — the target was written and `os.path.getsize` returned
  `size` (lines 2493-2502). -/
inductive CopyOutcome where
  | srcMissing
  | ioError
  | writtenGone
  | written (size : Nat)
deriving DecidableEq, Repr

/-- `num_digits = len(str(total_files))` (main_window.py:2441). -/
def numDigits (total : Nat) : Nat := (Nat.repr total).length

/-- `progress = int((i + 1) / total_files * 100)` (main_window.py:2461).
Modelled as the exact rational floor; for the integer arguments arising here
the CPython float expression computes the same value. -/
def progressPct (i total : Nat) : Nat := ((i + 1) * 100) / total

/-- `target_filename = f"{str(i + 1).zfill(num_digits)}_{file_name}"`
(main_window.py:2477-2478). -/
def targetFilename (i total : Nat) (name : String) : String :=
  pyZfill (Nat.repr (i + 1)) (numDigits total) ++ "_" ++ name

/-- Contribution of one loop iteration to `saved_count`
(main_window.py:2497-2498: incremented only when the target exists with
positive size). -/
def savedDelta : CopyOutcome → Nat
  | .written size => if 0 < size then 1 else 0
  | _ => 0

/-- Contribution of one loop iteration to `failed_count`
(main_window.py:2472, 2502, 2505, 2509). -/
def failedDelta : CopyOutcome → Nat
  | .srcMissing => 1
  | .ioError => 1
  | .writtenGone => 1
  | .written size => if 0 < size then 0 else 1

/-- Target filenames materialised on disk by one iteration (the `open(...,
'wb')` at main_window.py:2488 creates the file whenever the write path is
reached). -/
def writtenDelta (total i : Nat) (f : FileInfo) : CopyOutcome → List String
  | .written _ => [targetFilename i total f.name]
  | _ => []

/-- Observable state threaded through the per-file save loop. -/
structure SaveState where
  savedCount : Nat
  failedCount : Nat
  writtenNames : List String
  progressLog : List Nat
deriving DecidableEq, Repr

/-- One iteration of the `for i, file_info in enumerate(self.files)` loop of
`save_files_directly` (main_window.py:2459-2509): emit progress, then branch
on the outcome of the filesystem interaction. -/
def processEntry (total i : Nat) (f : FileInfo) (o : CopyOutcome) (st : SaveState) :
    SaveState :=
  { savedCount := st.savedCount + savedDelta o
    failedCount := st.failedCount + failedDelta o
    writtenNames := st.writtenNames ++ writtenDelta total i f o
    progressLog := st.progressLog ++ [progressPct i total] }

/-- The per-file loop, indexed from `i`. -/
def saveLoop (total : Nat) (env : Nat → CopyOutcome) :
    Nat → List FileInfo → SaveState → SaveState
  | _, [], st => st
  | i, f :: rest, st => saveLoop total env (i + 1) rest (processEntry total i f (env i) st)

/-- `SaveThread.save_files_directly` (main_window.py:2394-2563), after the
destination-directory creation and writability probe have succeeded: the
per-file copy loop.  `env i` is the filesystem's response for entry `i`. -/
def saveFilesDirectly (files : List FileInfo) (env : Nat → CopyOutcome) : SaveState :=
  saveLoop files.length env 0 files ⟨0, 0, [], []⟩

/-- `SaveThread.save_files_with_archive_parser` (main_window.py:2167-2298).
After abstracting the filesystem/handle interaction into `CopyOutcome` the
loop body is the same as `save_files_directly`: same progress formula, same
sequence-prefix naming, same per-entry counting (the only difference — reading
through an already-open handle before falling back to `open` — is folded into
the `written`/`ioError` outcome). -/
def saveFilesWithArchiveParser (files : List FileInfo) (env : Nat → CopyOutcome) :
    SaveState :=
  saveLoop files.length env 0 files ⟨0, 0, [], []⟩

/-- `SaveThread.get_safe_filename` (main_window.py:2565-2576), identical to
`WeChatParser._get_safe_filename` (wechat_parser.py:799-807): sanitize, and if
the result is empty or starts with a dot substitute a hash-derived placeholder
keeping the original extension.  `hash` models
`hashlib.md5(filename.encode()).hexdigest()[:8]`. -/
def getSafeFilename (hash : String → String) (filename : String) : String :=
  let safeName := pySanitize filename
  if safeName = "" || strStarts safeName "." then
    "file_" ++ hash filename ++ (pySplitext filename).2
  else safeName

/-- Classification done in `SaveThread.__init__` (main_window.py:2005-2009):
`is_archive` is set from the first entry's path only. -/
def saveThreadIsArchive : List FileInfo → Bool
  | [] => false
  | f :: _ => strContainsSub (pyReplaceBS f.path) "archive_extract_"

/-- The guard of `copy_to_safe_temp_dir` in `run`
(main_window.py:2102: `if self.is_archive and self.safe_temp_dir`). -/
def performsTempCopy (files : List FileInfo) (tempDirOk : Bool) : Bool :=
  saveThreadIsArchive files && tempDirOk

/-! ### `copy_to_safe_temp_dir` (main_window.py:2300-2392) -/

/-- Environment outcome for one entry of the temp-copy loop:
source missing (line 2336), read/write raised (line 2370), or copied with the
given verified size (lines 2355-2367). -/
inductive TempOutcome where
  | missing
  | ioError
  | copied (size : Nat)
deriving DecidableEq, Repr

/-- `progress = int((i + 1) / total_files * 50)` (main_window.py:2329): the
preparation phase caps at 50 percent. -/
def copyProgressPct (i total : Nat) : Nat := ((i + 1) * 50) / total

/-- State of the temp-copy loop: `copied_count`, `new_files`, and the emitted
progress values. -/
structure TempState where
  copiedCount : Nat
  newFiles : List FileInfo
  progressLog : List Nat
deriving DecidableEq, Repr

/-- One iteration of the `copy_to_safe_temp_dir` loop: emit progress; on a
verified non-empty copy append the entry, with its path rebased into the safe
temp directory, to `new_files` (main_window.py:2328-2364). -/
def copyTempEntry (tempDir : String) (total i : Nat) (f : FileInfo) (o : TempOutcome)
    (st : TempState) : TempState :=
  let st := { st with progressLog := st.progressLog ++ [copyProgressPct i total] }
  match o with
  | .missing => st
  | .ioError => st
  | .copied size =>
      if 0 < size then
        { st with copiedCount := st.copiedCount + 1
                  newFiles := st.newFiles ++ [{ f with path := tempDir ++ "\\" ++ f.name }] }
      else st

/-- The temp-copy loop, indexed from `i`. -/
def copyTempLoop (tempDir : String) (total : Nat) (env : Nat → TempOutcome) :
    Nat → List FileInfo → TempState → TempState
  | _, [], st => st
  | i, f :: rest, st =>
      copyTempLoop tempDir total env (i + 1) rest (copyTempEntry tempDir total i f (env i) st)

/-- `SaveThread.copy_to_safe_temp_dir` (main_window.py:2300-2392). -/
def copyToSafeTempDir (tempDir : String) (files : List FileInfo)
    (env : Nat → TempOutcome) : TempState :=
  copyTempLoop tempDir files.length env 0 files ⟨0, [], []⟩

/-- After the copy loop, `self.files` is replaced by `new_files` only when at
least one file was copied (main_window.py:2388-2392). -/
def filesAfterTempCopy (files : List FileInfo) (t : TempState) : List FileInfo :=
  if 0 < t.copiedCount then t.newFiles else files

/-- Progress values an observer receives across one archive-sourced `run`
(main_window.py:2098-2129): first the preparation phase
(`copy_to_safe_temp_dir`), then the save loop over the updated file list. -/
def archiveRunProgressLog (tempDir : String) (files : List FileInfo)
    (tenv : Nat → TempOutcome) (senv : Nat → CopyOutcome) : List Nat :=
  let t := copyToSafeTempDir tempDir files tenv
  t.progressLog ++ (saveFilesWithArchiveParser (filesAfterTempCopy files t) senv).progressLog

/-! ## `WeChatParser._find_favorites_path` (wechat_parser.py:194-296)

The directory tree under the parser's `cache_path` is modelled as a list of
entries; `os.listdir` order is the list order.  The parent directory of
`cache_path` (consulted only by the abbreviated-name branch) is a further
listing. -/

/-- A directory entry: a file, or a directory with its own listing. -/
inductive Entry where
  | file (name : String)
  | dir (name : String) (children : List Entry)

/-- Name of an entry. -/
def entryName : Entry → String
  | .file n => n
  | .dir n _ => n

/-- `os.path.isfile`. -/
def isFileE : Entry → Bool
  | .file _ => true
  | .dir _ _ => false

/-- `os.path.isdir`. -/
def isDirE : Entry → Bool
  | .file _ => false
  | .dir _ _ => true

/-- `os.path.exists(os.path.join(root, c₁, c₂, ...))` against a listing:
every intermediate component must be a directory, the last may be a file or a
directory. -/
def existsPath : List String → List Entry → Bool
  | [], _ => true
  | n :: rest, es =>
      match es.find? (fun e => entryName e = n) with
      | some (.file _) => rest.isEmpty
      | some (.dir _ cs) => existsPath rest cs
      | none => false

/-- `re.compile(r'fav.*', re.IGNORECASE).match(name)`: the name starts with
`fav` case-insensitively. -/
def favMatch (s : String) : Bool := strStarts (pyLower s) "fav"

/-- First directory name at one level matching the fav pattern, in listing
order (the inner `for dir_name in dirs` of the walk loops). -/
def favDirAtLevel : List Entry → Option String
  | [] => none
  | .file _ :: rest => favDirAtLevel rest
  | .dir n _ :: rest => if favMatch n then some n else favDirAtLevel rest

mutual
/-- `for root, dirs, _ in os.walk(...)` searching for a `fav*` directory
(wechat_parser.py:233-240): visit a directory, scan its subdirectory names in
listing order, then recurse into each subdirectory in order.  `path` is the
component path of the directory whose listing is `es`. -/
def findFavWalk (path : List String) (es : List Entry) : Option (List String) :=
  match favDirAtLevel es with
  | some n => some (path ++ [n])
  | none => findFavWalkChildren path es

/-- Recurse into the subdirectories of the current level, in order. -/
def findFavWalkChildren (path : List String) : List Entry → Option (List String)
  | [] => none
  | .file _ :: rest => findFavWalkChildren path rest
  | .dir n cs :: rest =>
      match findFavWalk (path ++ [n]) cs with
      | some r => some r
      | none => findFavWalkChildren path rest
end

/-- What `_find_favorites_path` resolved to. -/
inductive Resolved where
  | root
  | sub (rel : List String)
  | sibling (name : String)
  | completed
deriving DecidableEq, Repr

/-- Step 1 (wechat_parser.py:201-215): if the leaf name of `cache_path` is
itself fav-like, accept it; for an abbreviated form first look among the
parent's entries for a directory whose lowercased name is `favorites`. -/
def favBaseStep (cachePath : String) (parentEs : List Entry) : Option Resolved :=
  let base := pyLower (pyBasename cachePath)
  if base = "favorites" || base = "fav" || strStarts base "favorite" then
    if base ≠ "favorites" then
      match parentEs.find? (fun e => isDirE e && (pyLower (entryName e) == "favorites")) with
      | some e => some (.sibling (entryName e))
      | none => some .root
    else some .root
  else none

/-- The fixed candidate subpaths of step 2 (wechat_parser.py:218-225). -/
def fixedSubpaths : List (List String) :=
  [["Favorites"], ["FileStorage", "Favorites"], ["WeChat Files", "Favorites"],
   ["Favorites", "File"], ["Favorites", "Images"], ["Favorites", "Videos"]]

/-- Step 2: the first existing fixed subpath (wechat_parser.py:228-231). -/
def fixedPathsStep (es : List Entry) : Option Resolved :=
  (fixedSubpaths.find? (fun p => existsPath p es)).map Resolved.sub

/-- Step 3 (and its verbatim repetition at wechat_parser.py:273-278): walk the
whole tree for a `fav*` directory. -/
def walkStep (es : List Entry) : Option Resolved :=
  (findFavWalk [] es).map Resolved.sub

/-- The candidate subpaths probed inside a `wxid_*` directory
(wechat_parser.py:251-255). -/
def wxidSubpaths : List (List String) :=
  [["Favorites"], ["FileStorage", "Favorites"], ["Fav"]]

/-- Step 4 (wechat_parser.py:242-269): for each `wxid_*` directory in listing
order, probe the fixed subpaths, then walk it for a `fav*` directory;
continue with the next `wxid_*` directory if neither succeeds. -/
def wxidStep : List Entry → Option Resolved
  | [] => none
  | .file _ :: rest => wxidStep rest
  | .dir n cs :: rest =>
      if strStarts n "wxid_" then
        match wxidSubpaths.find? (fun p => existsPath p cs) with
        | some p => some (.sub (n :: p))
        | none =>
            match findFavWalk [n] cs with
            | some r => some (.sub r)
            | none => wxidStep rest
      else wxidStep rest

/-- Step 5 (wechat_parser.py:280-283): accept `cache_path` itself when it
directly contains at least one file.  (`cache_path` is a directory here, so
the `os.path.isdir` conjunct holds.) -/
def lastResortStep (es : List Entry) : Option Resolved :=
  if es.any isFileE then some .root else none

/-- Step 6 (wechat_parser.py:285-290): if the path contains `FileStorage/Fav`
(after backslash normalisation) and the completed `FileStorage/Favorites`
variant exists, return it.  `completedExists` is the oracle for
`os.path.exists(complete_path)`. -/
def completionStep (cachePath : String) (completedExists : Bool) : Option Resolved :=
  if strContainsSub (pyReplaceBS cachePath) "FileStorage/Fav" && completedExists then
    some .completed
  else none

/-- `WeChatParser._find_favorites_path` (wechat_parser.py:194-296) for an
existing directory `cache_path` with listing `es` and parent listing
`parentEs`: the ordered chain of strategies, `.error ()` being the final
`FileNotFoundError`. -/
def findFavoritesPath (cachePath : String) (es parentEs : List Entry)
    (completedExists : Bool) : Except Unit Resolved :=
  match favBaseStep cachePath parentEs with
  | some r => .ok r
  | none =>
  match fixedPathsStep es with
  | some r => .ok r
  | none =>
  match walkStep es with
  | some r => .ok r
  | none =>
  match wxidStep es with
  | some r => .ok r
  | none =>
  match walkStep es with
  | some r => .ok r
  | none =>
  match lastResortStep es with
  | some r => .ok r
  | none =>
  match completionStep cachePath completedExists with
  | some r => .ok r
  | none => .error ()

/-! ## `WeChatParser._find_media_files`, database branch
(wechat_parser.py:399-462) -/

/-- One fetched row, as decoded by the uniform `row_parser` lambdas
(wechat_parser.py:416-434): `(row[0], row[1], row[2] if len(row) > 2 else
None)`.  `fileName` is `None` when the column is NULL. -/
structure DbRow where
  itemId : Nat
  fileName : Option String
  sortKey : Option Int
deriving DecidableEq, Repr

/-- Outcome of executing one query template: `err` models
`sqlite3.OperationalError` (wechat_parser.py:457), `ok` the fetched rows. -/
inductive QueryResult where
  | err
  | ok (rows : List DbRow)
deriving DecidableEq, Repr

/-- `file_name or f"file_{item_id}"` (wechat_parser.py:449): Python `or`
takes the fallback when `file_name` is `None` or empty. -/
def rowName (itemId : Nat) (fileName : Option String) : String :=
  match fileName with
  | none => "file_" ++ Nat.repr itemId
  | some s => if s = "" then "file_" ++ Nat.repr itemId else s

/-- A media entry produced by the database branch
(wechat_parser.py:447-452). -/
structure DbMediaEntry where
  itemId : Nat
  name : String
  path : String
  sortKey : Option Int
deriving DecidableEq, Repr

/-- The inner `for row in results` loop (wechat_parser.py:443-452): keep a row
only when `_find_file_by_id` resolves its identifier to a path.  `resolve`
abstracts `_find_file_by_id` (a read-only filesystem probe). -/
def processRows (resolve : Nat → Option String) (rows : List DbRow) : List DbMediaEntry :=
  rows.filterMap fun r =>
    match resolve r.itemId with
    | some p => some ⟨r.itemId, rowName r.itemId r.fileName, p, r.sortKey⟩
    | none => none

/-- The `for query, row_parser in tables_to_try` loop
(wechat_parser.py:437-458): execute each template in order; a failing query is
skipped; the loop breaks (`if media_files: break`) only once the accumulated
entry list is non-empty, i.e. once some row has resolved to a file.  Returns
the entries together with the number of templates executed. -/
def tryTemplates (resolve : Nat → Option String) : List QueryResult → List DbMediaEntry × Nat
  | [] => ([], 0)
  | q :: rest =>
      match q with
      | .err =>
          let r := tryTemplates resolve rest
          (r.1, r.2 + 1)
      | .ok rows =>
          let found := processRows resolve rows
          if found.isEmpty then
            let r := tryTemplates resolve rest
            (r.1, r.2 + 1)
          else (found, 1)

/-! ## `WeChatParser._apply_smart_sorting` (wechat_parser.py:547-596) and the
filesystem discovery branch (wechat_parser.py:464-517) -/

/-- A media-file dict as built by `_find_media_files`.  Dict-key presence is
modelled with `Option`: the filesystem branch builds entries carrying
`sort_key` but no `mtime` key (wechat_parser.py:504-510). -/
structure PyMediaEntry where
  id : String
  name : String
  path : String
  sortKey : Option Int
  mtime : Option Int
deriving DecidableEq, Repr

/-- `extract_number_from_filename` (wechat_parser.py:580-585): the first run
of digits anywhere in the name, else 0. -/
def extractNumberAux : List Char → Option Nat
  | [] => none
  | c :: rest =>
      if c.isDigit then some (digitsVal ((c :: rest).takeWhile Char.isDigit))
      else extractNumberAux rest

/-- `extract_number_from_filename` over a string. -/
def extractNumber (s : String) : Nat := (extractNumberAux s.data).getD 0

/-- Sort key of strategy 2: `x.get('mtime', 0)` (wechat_parser.py:569). -/
def mtimeKey (e : PyMediaEntry) : Int := e.mtime.getD 0

/-- Ordering relation of strategy 2 (sort by modification time; Python's sort
is stable, `List.insertionSort` is the stable sort with the same result). -/
def mtimeRel (a b : PyMediaEntry) : Prop := mtimeKey a ≤ mtimeKey b

instance : DecidableRel mtimeRel := fun a b => inferInstanceAs (Decidable (_ ≤ _))

instance : IsTotal PyMediaEntry mtimeRel := ⟨fun a b => Int.le_total _ _⟩

instance : IsTrans PyMediaEntry mtimeRel := ⟨fun _ _ _ => Int.le_trans⟩

/-- Ordering relation of strategy 3: the key tuple
`(x.get('mtime', 0), extract_number_from_filename(x['name']))`
(wechat_parser.py:591). -/
def mtimeNumRel (a b : PyMediaEntry) : Prop :=
  mtimeKey a < mtimeKey b ∨
    (mtimeKey a = mtimeKey b ∧ extractNumber a.name ≤ extractNumber b.name)

instance : DecidableRel mtimeNumRel := fun _ _ => inferInstanceAs (Decidable (_ ∨ _))

/-- `WeChatParser._apply_smart_sorting` (wechat_parser.py:547-596).
Strategy 1 returns the list untouched whenever the first entry carries a
non-null `sort_key`.  Otherwise strategy 2 attaches a recomputed `mtime`
(`getmtime` models `os.path.getmtime`, `none` an exception, turned into 0)
and sorts by it; strategy 3 re-sorts by `(mtime, numeric token)` when the
number of distinct mtimes is below 80 percent of the file count
(`len(set(mtimes)) < len(mtimes) * 0.8`, exact rational form). -/
def applySmartSorting (getmtime : String → Option Int) (entries : List PyMediaEntry) :
    List PyMediaEntry :=
  match entries with
  | [] => []
  | e₀ :: _ =>
      if e₀.sortKey ≠ none then entries
      else
        let withM := entries.map fun e =>
          if e.mtime = none then { e with mtime := some ((getmtime e.path).getD 0) } else e
        let sorted := List.insertionSort mtimeRel withM
        let mtimes := sorted.map mtimeKey
        if 5 * mtimes.dedup.length < 4 * mtimes.length then
          List.insertionSort mtimeNumRel sorted
        else sorted

/-- A file collected by the filesystem walk of the discovery branch
(wechat_parser.py:473-498), after the media-extension filter and the
video-thumbnail exclusion: its display name, path, and the modification time
read at collection (0 if `os.path.getmtime` raised). -/
structure FsFile where
  name : String
  path : String
  mtime : Int
deriving DecidableEq, Repr

/-- Sort relation for `temp_files.sort(key=lambda x: x['mtime'])`
(wechat_parser.py:501). -/
def fsMtimeRel (a b : FsFile) : Prop := a.mtime ≤ b.mtime

instance : DecidableRel fsMtimeRel := fun a b => inferInstanceAs (Decidable (_ ≤ _))

instance : IsTotal FsFile fsMtimeRel := ⟨fun a b => Int.le_total _ _⟩

instance : IsTrans FsFile fsMtimeRel := ⟨fun _ _ _ => Int.le_trans⟩

/-- The filesystem branch of `_find_media_files` (wechat_parser.py:464-517)
applied to the walked files: sort by modification time, convert to entry
dicts whose `sort_key` is the mtime and which carry no `mtime` key, then run
`_apply_smart_sorting`.  `hash` models `hashlib.md5(path.encode()).hexdigest()`
for the `id` field. -/
def fsDiscover (hash : String → String) (getmtime : String → Option Int)
    (walked : List FsFile) : List PyMediaEntry :=
  let sorted := List.insertionSort fsMtimeRel walked
  let entries := sorted.map fun f =>
    PyMediaEntry.mk (hash f.path) f.name f.path (some f.mtime) none
  applySmartSorting getmtime entries

/-- The re-sort the specification's smart-sort policy prescribes for
filesystem discovery.  Modelled from the spec: "re-sort by (modification
time, a numeric token extracted from the filename)" — stated on the entry
dicts, whose modification time is their `sort_key` in the filesystem branch.
This is the comparison definition for the refinement claim; it is *not*
translated from the code. -/
def specSmartResort (entries : List PyMediaEntry) : List PyMediaEntry :=
  List.insertionSort
    (fun a b => a.sortKey.getD 0 < b.sortKey.getD 0 ∨
      (a.sortKey.getD 0 = b.sortKey.getD 0 ∧ extractNumber a.name ≤ extractNumber b.name))
    entries

/-! ## `WeChatParser.save_file_with_sequence` (wechat_parser.py:735-765) -/

/-- The `while os.path.exists(target_path)` collision loop
(wechat_parser.py:753-756), with the destination's current filenames as
`existing`.  The fuel `existing.length + 1` suffices: the candidate names are
pairwise distinct, so some candidate is free. -/
def resolveCollision (existing : List String) (seq base ext : String) :
    Nat → String → Nat → String
  | fuel, current, counter =>
      if current ∈ existing then
        match fuel with
        | 0 => current
        | fuel' + 1 =>
            resolveCollision existing seq base ext fuel'
              (seq ++ "_" ++ base ++ "_" ++ Nat.repr counter ++ ext) (counter + 1)
      else current

/-- `WeChatParser.save_file_with_sequence` (wechat_parser.py:735-765):
`none` when the source path is missing or `shutil.copy2` raised
(`copyOk = false`); otherwise the target filename written into the save
folder.  The name is the sanitised display name prefixed with
`file_info.get('sequence', '001')`. -/
def saveFileWithSequence (hash : String → String) (srcExists copyOk : Bool)
    (existing : List String) (name : String) (seq : Option String) : Option String :=
  if !srcExists then none
  else
    let safeName := getSafeFilename hash name
    let s := seq.getD "001"
    let pr := pySplitext safeName
    let prefixed := s ++ "_" ++ safeName
    let target := resolveCollision existing s pr.1 pr.2 (existing.length + 1) prefixed 1
    if copyOk then some target else none

/-! ## `ArchiveParser` (archive_parser.py) -/

/-- Errors raised by `ArchiveParser.__init__` up to format detection:
`notFound` is the `FileNotFoundError` of line 36, `unsupportedFormat` the
`ValueError` of line 42. -/
inductive ArchiveInitError where
  | notFound
  | unsupportedFormat
deriving DecidableEq, Repr

/-- Prefix test on byte lists. -/
def bytesStart : List Nat → List Nat → Bool
  | _, [] => true
  | [], _ :: _ => false
  | h :: t, n :: m => h = n && bytesStart t m

/-- `header.startswith(b'PK\x03\x04')` on `header = f.read(10)`
(archive_parser.py:149-152); `none` models a read exception (caught, leading
to "unsupported"). -/
def headerIsZip : Option (List Nat) → Bool
  | some bytes => bytesStart (bytes.take 10) [0x50, 0x4B, 0x03, 0x04]
  | none => false

/-- `ArchiveParser._detect_archive_type` (archive_parser.py:140-157): a
`.zip` extension (lowercased) is accepted outright, without reading the
header; otherwise the leading bytes are matched against the ZIP signature. -/
def detectArchiveType (archivePath : String) (content : Option (List Nat)) :
    Option String :=
  let ext := pyLower (pySplitext archivePath).2
  if ext = ".zip" then some "zip"
  else if headerIsZip content then some "zip"
  else none

/-- `ArchiveParser.__init__` (archive_parser.py:33-42), up to and including
format detection: existence check first, then format detection.
`content` is the file's bytes (`none` if unreadable). -/
def archiveParserInit (pathExists : Bool) (archivePath : String)
    (content : Option (List Nat)) : Except ArchiveInitError String :=
  if !pathExists then .error .notFound
  else
    match detectArchiveType archivePath content with
    | some t => .ok t
    | none => .error .unsupportedFormat

/-- `re.search(r'_(\d+)', file_name)` (archive_parser.py:260): the first
underscore immediately followed by a digit, taking the maximal digit run
after it. -/
def archSortNumberAux : List Char → Option Nat
  | [] => none
  | c :: rest =>
      if c = '_' then
        let ds := rest.takeWhile Char.isDigit
        if ds.isEmpty then archSortNumberAux rest
        else some (digitsVal ds)
      else archSortNumberAux rest

/-- `sort_number` of `ArchiveParser._find_media_files`
(archive_parser.py:258-267): the extracted token, defaulting to the sentinel
999999. -/
def archSortNumber (s : String) : Nat := (archSortNumberAux s.data).getD 999999

/-- A media file found in the extraction directory (after the extension
filter and accessibility check of archive_parser.py:225-250). -/
structure ArchFile where
  name : String
  path : String
  mtime : Int
deriving DecidableEq, Repr

/-- An entry of the list returned by `ArchiveParser._find_media_files`
(archive_parser.py:290-295). -/
structure ArchEntry where
  id : String
  name : String
  path : String
  sortKey : Nat
deriving DecidableEq, Repr

/-- `temp_files.sort(key=lambda x: (x['sort_number'], x['name']))`
(archive_parser.py:282): ascending lexicographic order on the pair. -/
def archRel (a b : ArchFile) : Prop :=
  archSortNumber a.name < archSortNumber b.name ∨
    (archSortNumber a.name = archSortNumber b.name ∧ a.name ≤ b.name)

instance : DecidableRel archRel := fun _ _ => inferInstanceAs (Decidable (_ ∨ _))

instance : IsTotal ArchFile archRel := by
  constructor
  intro a b
  rcases Nat.lt_trichotomy (archSortNumber a.name) (archSortNumber b.name) with h | h | h
  · exact Or.inl (Or.inl h)
  · rcases le_total a.name b.name with h' | h'
    · exact Or.inl (Or.inr ⟨h, h'⟩)
    · exact Or.inr (Or.inr ⟨h.symm, h'⟩)
  · exact Or.inr (Or.inl h)

instance : IsTrans ArchFile archRel := by
  constructor
  intro a b c hab hbc
  rcases hab with h₁ | ⟨e₁, l₁⟩
  · rcases hbc with h₂ | ⟨e₂, _⟩
    · exact Or.inl (h₁.trans h₂)
    · exact Or.inl (e₂ ▸ h₁)
  · rcases hbc with h₂ | ⟨e₂, l₂⟩
    · exact Or.inl (e₁ ▸ h₂)
    · exact Or.inr ⟨e₁.trans e₂, l₁.trans l₂⟩

/-- `ArchiveParser._find_media_files` (archive_parser.py:209-331) applied to
the accessible media files of the extraction directory: sort by
`(sort_number, name)` and convert to entries whose `sort_key` is the token.
`hash` models `hashlib.md5(path.encode()).hexdigest()`. -/
def archiveFindMedia (hash : String → String) (walked : List ArchFile) : List ArchEntry :=
  (List.insertionSort archRel walked).map fun f =>
    ArchEntry.mk (hash f.path) f.name f.path (archSortNumber f.name)

/-! ## Auxiliary accumulators for reasoning about the save loop -/

/-- Did the iteration end in `saved_count += 1`? -/
def goodOutcome : CopyOutcome → Bool
  | .written size => decide (0 < size)
  | _ => false

/-- Total `saved_count` contribution of the loop tail starting at index `i`. -/
def savedTotal (env : Nat → CopyOutcome) : Nat → List FileInfo → Nat
  | _, [] => 0
  | i, _ :: rest => savedDelta (env i) + savedTotal env (i + 1) rest

/-- Total `failed_count` contribution of the loop tail starting at index `i`. -/
def failedTotal (env : Nat → CopyOutcome) : Nat → List FileInfo → Nat
  | _, [] => 0
  | i, _ :: rest => failedDelta (env i) + failedTotal env (i + 1) rest

/-- Target filenames written by the loop tail starting at index `i`. -/
def writtenList (total : Nat) (env : Nat → CopyOutcome) : Nat → List FileInfo → List String
  | _, [] => []
  | i, f :: rest => writtenDelta total i f (env i) ++ writtenList total env (i + 1) rest

/-- Twelve entries for the concrete 12-file transfer scenarios. -/
def demoFiles12 : List FileInfo :=
  [⟨"p01.jpg", "s01"⟩, ⟨"p02.jpg", "s02"⟩, ⟨"p03.jpg", "s03"⟩, ⟨"p04.jpg", "s04"⟩,
   ⟨"p05.jpg", "s05"⟩, ⟨"p06.jpg", "s06"⟩, ⟨"p07.jpg", "s07"⟩, ⟨"p08.jpg", "s08"⟩,
   ⟨"p09.jpg", "s09"⟩, ⟨"p10.jpg", "s10"⟩, ⟨"p11.jpg", "s11"⟩, ⟨"p12.jpg", "s12"⟩]

/-! ## Lemmas about the save loop -/

theorem savedDelta_add_failedDelta (o : CopyOutcome) : savedDelta o + failedDelta o = 1 := by
  cases o with
  | written s => by_cases h : 0 < s <;> simp [savedDelta, failedDelta, h]
  | srcMissing => rfl
  | ioError => rfl
  | writtenGone => rfl

theorem savedDelta_eq_ite (o : CopyOutcome) :
    savedDelta o = if goodOutcome o then 1 else 0 := by
  cases o with
  | written s => by_cases h : 0 < s <;> simp [savedDelta, goodOutcome, h]
  | srcMissing => rfl
  | ioError => rfl
  | writtenGone => rfl

theorem failedDelta_eq_ite (o : CopyOutcome) :
    failedDelta o = if goodOutcome o then 0 else 1 := by
  cases o with
  | written s => by_cases h : 0 < s <;> simp [failedDelta, goodOutcome, h]
  | srcMissing => rfl
  | ioError => rfl
  | writtenGone => rfl

theorem saveLoop_savedCount (total : Nat) (env : Nat → CopyOutcome) :
    ∀ (fs : List FileInfo) (i : Nat) (st : SaveState),
      (saveLoop total env i fs st).savedCount = st.savedCount + savedTotal env i fs := by
  intro fs
  induction fs with
  | nil => intro i st; simp [saveLoop, savedTotal]
  | cons f rest ih =>
      intro i st
      rw [saveLoop, ih]
      simp [processEntry, savedTotal, Nat.add_assoc]

theorem saveLoop_failedCount (total : Nat) (env : Nat → CopyOutcome) :
    ∀ (fs : List FileInfo) (i : Nat) (st : SaveState),
      (saveLoop total env i fs st).failedCount = st.failedCount + failedTotal env i fs := by
  intro fs
  induction fs with
  | nil => intro i st; simp [saveLoop, failedTotal]
  | cons f rest ih =>
      intro i st
      rw [saveLoop, ih]
      simp [processEntry, failedTotal, Nat.add_assoc]

theorem saveLoop_writtenNames (total : Nat) (env : Nat → CopyOutcome) :
    ∀ (fs : List FileInfo) (i : Nat) (st : SaveState),
      (saveLoop total env i fs st).writtenNames = st.writtenNames ++ writtenList total env i fs := by
  intro fs
  induction fs with
  | nil => intro i st; simp [saveLoop, writtenList]
  | cons f rest ih =>
      intro i st
      rw [saveLoop, ih]
      simp [processEntry, writtenList]

theorem saveLoop_progressLog (total : Nat) (env : Nat → CopyOutcome) :
    ∀ (fs : List FileInfo) (i : Nat) (st : SaveState),
      (saveLoop total env i fs st).progressLog
        = st.progressLog ++ (List.range fs.length).map (fun k => progressPct (i + k) total) := by
  intro fs
  induction fs with
  | nil => intro i st; simp [saveLoop]
  | cons f rest ih =>
      intro i st
      have hfun : (fun k => progressPct (i + 1 + k) total)
          = fun k => progressPct (i + (k + 1)) total := by
        funext k
        have h : i + 1 + k = i + (k + 1) := by omega
        rw [h]
      rw [saveLoop, ih]
      simp [processEntry, List.range_succ_eq_map, List.map_map, Function.comp_def, hfun,
        Nat.succ_eq_add_one]

theorem savedTotal_eq_countP (env : Nat → CopyOutcome) :
    ∀ (fs : List FileInfo) (i : Nat),
      savedTotal env i fs = (List.range fs.length).countP (fun k => goodOutcome (env (i + k))) := by
  intro fs
  induction fs with
  | nil => intro i; simp [savedTotal]
  | cons f rest ih =>
      intro i
      have hfun : ((fun k => goodOutcome (env (i + k))) ∘ Nat.succ)
          = fun k => goodOutcome (env (i + 1 + k)) := by
        funext k
        have h : i + Nat.succ k = i + 1 + k := by omega
        simp [Function.comp_def, h]
      rw [savedTotal, ih, List.length_cons, List.range_succ_eq_map, List.countP_cons,
        List.countP_map, hfun, savedDelta_eq_ite]
      simp [Nat.add_comm]

theorem failedTotal_eq_countP (env : Nat → CopyOutcome) :
    ∀ (fs : List FileInfo) (i : Nat),
      failedTotal env i fs
        = (List.range fs.length).countP (fun k => !goodOutcome (env (i + k))) := by
  intro fs
  induction fs with
  | nil => intro i; simp [failedTotal]
  | cons f rest ih =>
      intro i
      have hfun : ((fun k => !goodOutcome (env (i + k))) ∘ Nat.succ)
          = fun k => !goodOutcome (env (i + 1 + k)) := by
        funext k
        have h : i + Nat.succ k = i + 1 + k := by omega
        simp [Function.comp_def, h]
      rw [failedTotal, ih, List.length_cons, List.range_succ_eq_map, List.countP_cons,
        List.countP_map, hfun, failedDelta_eq_ite]
      by_cases hg : goodOutcome (env i) <;> simp [hg, Nat.add_comm]

theorem savedTotal_all_good (env : Nat → CopyOutcome) (sizes : Nat → Nat) :
    ∀ (fs : List FileInfo) (i : Nat),
      (∀ k, k < fs.length → env (i + k) = .written (sizes (i + k)) ∧ 0 < sizes (i + k)) →
      savedTotal env i fs = fs.length := by
  intro fs
  induction fs with
  | nil => intro i _; simp [savedTotal]
  | cons f rest ih =>
      intro i h
      have h0 := h 0 (by simp)
      rw [savedTotal]
      rw [Nat.add_zero] at h0
      rw [h0.1]
      have hrest : ∀ k, k < rest.length →
          env (i + 1 + k) = .written (sizes (i + 1 + k)) ∧ 0 < sizes (i + 1 + k) := by
        intro k hk
        have hk' : k + 1 < rest.length + 1 := by omega
        have := h (k + 1) (by simpa using hk')
        have harr : i + (k + 1) = i + 1 + k := by omega
        rw [harr] at this
        exact this
      rw [ih (i + 1) hrest]
      simp [savedDelta, h0.2]
      omega

theorem failedTotal_all_good (env : Nat → CopyOutcome) (sizes : Nat → Nat) :
    ∀ (fs : List FileInfo) (i : Nat),
      (∀ k, k < fs.length → env (i + k) = .written (sizes (i + k)) ∧ 0 < sizes (i + k)) →
      failedTotal env i fs = 0 := by
  intro fs
  induction fs with
  | nil => intro i _; simp [failedTotal]
  | cons f rest ih =>
      intro i h
      have h0 := h 0 (by simp)
      rw [Nat.add_zero] at h0
      rw [failedTotal, h0.1]
      have hrest : ∀ k, k < rest.length →
          env (i + 1 + k) = .written (sizes (i + 1 + k)) ∧ 0 < sizes (i + 1 + k) := by
        intro k hk
        have := h (k + 1) (by simpa using Nat.succ_lt_succ hk)
        have harr : i + (k + 1) = i + 1 + k := by omega
        rw [harr] at this
        exact this
      rw [ih (i + 1) hrest]
      simp [failedDelta, h0.2]

theorem writtenList_all_written (total : Nat) (env : Nat → CopyOutcome) (sizes : Nat → Nat) :
    ∀ (fs : List FileInfo) (i : Nat),
      (∀ k, k < fs.length → env (i + k) = .written (sizes (i + k))) →
      writtenList total env i fs
        = (List.enumFrom i fs).map (fun p => targetFilename p.1 total p.2.name) := by
  intro fs
  induction fs with
  | nil => intro i _; simp [writtenList]
  | cons f rest ih =>
      intro i h
      have h0 := h 0 (by simp)
      rw [Nat.add_zero] at h0
      rw [writtenList, h0]
      have hrest : ∀ k, k < rest.length → env (i + 1 + k) = .written (sizes (i + 1 + k)) := by
        intro k hk
        have := h (k + 1) (by simpa using Nat.succ_lt_succ hk)
        have harr : i + (k + 1) = i + 1 + k := by omega
        rw [harr] at this
        exact this
      rw [ih (i + 1) hrest]
      simp [writtenDelta, List.enumFrom]

/-! ## Lemmas about the temp-copy loop and progress monotonicity -/

theorem copyTempEntry_progressLog (tempDir : String) (total i : Nat) (f : FileInfo)
    (o : TempOutcome) (st : TempState) :
    (copyTempEntry tempDir total i f o st).progressLog
      = st.progressLog ++ [copyProgressPct i total] := by
  cases o with
  | missing => rfl
  | ioError => rfl
  | copied s => by_cases h : 0 < s <;> simp [copyTempEntry, h]

theorem copyTempLoop_progressLog (tempDir : String) (total : Nat) (env : Nat → TempOutcome) :
    ∀ (fs : List FileInfo) (i : Nat) (st : TempState),
      (copyTempLoop tempDir total env i fs st).progressLog
        = st.progressLog ++ (List.range fs.length).map (fun k => copyProgressPct (i + k) total) := by
  intro fs
  induction fs with
  | nil => intro i st; simp [copyTempLoop]
  | cons f rest ih =>
      intro i st
      have hfun : (fun k => copyProgressPct (i + 1 + k) total)
          = fun k => copyProgressPct (i + (k + 1)) total := by
        funext k
        have h : i + 1 + k = i + (k + 1) := by omega
        rw [h]
      rw [copyTempLoop, ih, copyTempEntry_progressLog]
      simp [List.range_succ_eq_map, List.map_map, Function.comp_def, hfun, Nat.succ_eq_add_one]

theorem pairwise_le_map_range (f : Nat → Nat) (n : Nat) (hf : ∀ i j, i ≤ j → f i ≤ f j) :
    ((List.range n).map f).Pairwise (· ≤ ·) :=
  (List.pairwise_lt_range n).map f (fun a b hab => hf a b (Nat.le_of_lt hab))

theorem progressPct_mono (total : Nat) : ∀ i j, i ≤ j → progressPct i total ≤ progressPct j total := by
  intro i j hij
  exact Nat.div_le_div_right (Nat.mul_le_mul_right 100 (by omega))

theorem copyProgressPct_mono (total : Nat) :
    ∀ i j, i ≤ j → copyProgressPct i total ≤ copyProgressPct j total := by
  intro i j hij
  exact Nat.div_le_div_right (Nat.mul_le_mul_right 50 (by omega))

theorem savedTotal_add_failedTotal (env : Nat → CopyOutcome) :
    ∀ (fs : List FileInfo) (i : Nat), savedTotal env i fs + failedTotal env i fs = fs.length := by
  intro fs
  induction fs with
  | nil => intro i; simp [savedTotal, failedTotal]
  | cons f rest ih =>
      intro i
      rw [savedTotal, failedTotal, List.length_cons]
      have h := savedDelta_add_failedDelta (env i)
      have h2 := ih (i + 1)
      omega

/-! ## Claim theorems -/

/-- Claim C1: for every list of N entries passed to the transfer engine, the
per-file loop of `save_files_directly` processes the entries in the given
list order without re-sorting, and the i-th written file is named with the
zero-padded sequence prefix of width `len(str(N))`, an underscore, and the
entry's name; when every source exists and every write is verified non-empty,
`savedCount = N` and `failedCount = 0`. -/
theorem c1_order_and_sequence_naming (files : List FileInfo) (env : Nat → CopyOutcome)
    (sizes : Nat → Nat)
    (h : ∀ i, i < files.length → env i = .written (sizes i) ∧ 0 < sizes i) :
    (saveFilesDirectly files env).savedCount = files.length ∧
    (saveFilesDirectly files env).failedCount = 0 ∧
    (saveFilesDirectly files env).writtenNames
      = (List.enumFrom 0 files).map (fun p => targetFilename p.1 files.length p.2.name) := by
  refine ⟨?_, ?_, ?_⟩
  · rw [saveFilesDirectly, saveLoop_savedCount,
      savedTotal_all_good env sizes files 0 (by intro k hk; simpa using h k hk)]
    simp
  · rw [saveFilesDirectly, saveLoop_failedCount,
      failedTotal_all_good env sizes files 0 (by intro k hk; simpa using h k hk)]
  · rw [saveFilesDirectly, saveLoop_writtenNames,
      writtenList_all_written files.length env sizes files 0
        (by intro k hk; simpa using (h k (by simpa using hk)).1)]
    simp

/-- Witness for C1: transferring 12 entries with every copy succeeding yields
savedCount 12, failedCount 0, and files prefixed `01_` through `12_`. -/
theorem c1_witness :
    (saveFilesDirectly demoFiles12 (fun _ => .written 1)).savedCount = 12 ∧
    (saveFilesDirectly demoFiles12 (fun _ => .written 1)).failedCount = 0 ∧
    (saveFilesDirectly demoFiles12 (fun _ => .written 1)).writtenNames
      = ["01_p01.jpg", "02_p02.jpg", "03_p03.jpg", "04_p04.jpg", "05_p05.jpg", "06_p06.jpg",
         "07_p07.jpg", "08_p08.jpg", "09_p09.jpg", "10_p10.jpg", "11_p11.jpg", "12_p12.jpg"] := by
  obtain ⟨h1, h2, h3⟩ := c1_order_and_sequence_naming demoFiles12 (fun _ => .written 1)
    (fun _ => 1) (by intro i _; exact ⟨rfl, Nat.one_pos⟩)
  exact ⟨h1.trans (by rfl), h2, h3.trans (by decide)⟩

/-- Claim C2: the per-file loop of `save_files_directly` never aborts on a
per-file failure: every entry whose source is missing, whose copy raises, or
whose written output is missing or zero-size on post-write verification is
counted in `failedCount`, every other entry in `savedCount`, and the loop
always processes all N entries (`savedCount + failedCount = N`). -/
theorem c2_per_file_failures_counted (files : List FileInfo) (env : Nat → CopyOutcome) :
    (saveFilesDirectly files env).savedCount
        = ((List.range files.length).filter (fun i => goodOutcome (env i))).length ∧
    (saveFilesDirectly files env).failedCount
        = ((List.range files.length).filter (fun i => !goodOutcome (env i))).length ∧
    (saveFilesDirectly files env).savedCount + (saveFilesDirectly files env).failedCount
        = files.length := by
  have hzero : ∀ p : Nat → Bool, (fun k => p (0 + k)) = p := by
    intro p
    funext k
    rw [Nat.zero_add]
  refine ⟨?_, ?_, ?_⟩
  · rw [saveFilesDirectly, saveLoop_savedCount, savedTotal_eq_countP,
      List.countP_eq_length_filter]
    simp only [hzero (fun k => goodOutcome (env k))]
    simp
  · rw [saveFilesDirectly, saveLoop_failedCount, failedTotal_eq_countP,
      List.countP_eq_length_filter]
    simp only [hzero (fun k => !goodOutcome (env k))]
    simp
  · rw [saveFilesDirectly, saveLoop_savedCount, saveLoop_failedCount]
    have := savedTotal_add_failedTotal env files 0
    show 0 + savedTotal env 0 files + (0 + failedTotal env 0 files) = files.length
    omega

/-- Counterexample to C3 as stated: `save_files_directly` writes the raw
display name after the sequence prefix; an entry named `a?b.jpg` (containing
the filesystem-illegal `?`) is written as `1_a?b.jpg`, not as the sanitised
`1_a_b.jpg` the claim requires on every save path. -/
theorem c3_counterexample :
    (saveFilesDirectly [⟨"a?b.jpg", "src"⟩] (fun _ => .written 3)).writtenNames = ["1_a?b.jpg"] ∧
    pySanitize "a?b.jpg" = "a_b.jpg" ∧
    ("1_a?b.jpg" : String) ≠ "1_" ++ pySanitize "a?b.jpg" := by
  refine ⟨by decide, by decide, by decide⟩

/-- Claim C3 (amended): sanitisation of the display name — replacing the
filesystem-illegal characters with an underscore, and substituting a
content-hash placeholder that preserves the original extension when the
sanitised name is empty or dot-leading — is applied on the parser-based save
path (`WeChatParser.save_file_with_sequence`), which writes
`sequence + "_" + sanitised name`; the direct-copy save paths of the transfer
engine write the raw name unsanitised (see the counterexample). -/
theorem c3_amended_sanitize_on_parser_path (hash : String → String) (name : String)
    (seqOpt : Option String) (existing : List String)
    (hfree : (seqOpt.getD "001" ++ "_" ++ getSafeFilename hash name) ∉ existing) :
    saveFileWithSequence hash true true existing name seqOpt
        = some (seqOpt.getD "001" ++ "_" ++ getSafeFilename hash name) ∧
    ((pySanitize name ≠ "" ∧ ¬ strStarts (pySanitize name) ".") →
        (getSafeFilename hash name).data.all (fun c => !illegalChar c) = true) ∧
    ((pySanitize name = "" ∨ strStarts (pySanitize name) ".") →
        getSafeFilename hash name = "file_" ++ hash name ++ (pySplitext name).2) := by
  refine ⟨?_, ?_, ?_⟩
  · simp [saveFileWithSequence, resolveCollision, hfree]
  · rintro ⟨h1, h2⟩
    have hs : getSafeFilename hash name = pySanitize name := by
      simp [getSafeFilename, h1, h2]
    rw [hs, pySanitize]
    rw [show (String.mk (name.data.map fun c => if illegalChar c then '_' else c)).data
        = name.data.map (fun c => if illegalChar c then '_' else c) from rfl]
    rw [List.all_map, List.all_eq_true]
    intro c _
    by_cases hc : illegalChar c = true
    · simp only [Function.comp_def, hc, if_true]
      decide
    · simp only [Function.comp_def, hc, if_false]
      simp [hc]
  · intro h
    rcases h with h | h <;> simp [getSafeFilename, h]

/-- Witness for the amended C3: the parser-based path saves `a?b.jpg` as
`03_a_b.jpg`, its display name sanitised. -/
theorem c3_witness :
    saveFileWithSequence (fun _ => "deadbeef") true true [] "a?b.jpg" (some "03")
      = some "03_a_b.jpg" :=
  (c3_amended_sanitize_on_parser_path (fun _ => "deadbeef") "a?b.jpg" (some "03") []
    (by decide)).1.trans (by decide)

/-- Counterexample to C4 as stated: in an archive-sourced run the
preparation phase (`copy_to_safe_temp_dir`, 50-percent scale) is followed by
the save loop (100-percent scale), so the progress sequence reported to the
observer across one run decreases at the phase boundary (here `..., 50, 8, ...`). -/
theorem c4_counterexample :
    ¬ (archiveRunProgressLog "T" demoFiles12 (fun _ => .copied 1)
        (fun _ => .written 1)).Pairwise (· ≤ ·) := by
  decide

/-- Claim C4 (amended): within each phase of a transfer run the reported
progress sequence is monotonically non-decreasing; the save loops report
`(index+1)/total*100` and the archive preparation phase reports
`(index+1)/total*50`, so across an archive-sourced run the concatenated
sequence may decrease at the phase boundary (see the counterexample). -/
theorem c4_amended_phase_monotonicity :
    (∀ (files : List FileInfo) (env : Nat → CopyOutcome),
        (saveFilesDirectly files env).progressLog
            = (List.range files.length).map (fun i => ((i + 1) * 100) / files.length) ∧
        (saveFilesDirectly files env).progressLog.Pairwise (· ≤ ·)) ∧
    (∀ (files : List FileInfo) (env : Nat → CopyOutcome),
        (saveFilesWithArchiveParser files env).progressLog
            = (List.range files.length).map (fun i => ((i + 1) * 100) / files.length) ∧
        (saveFilesWithArchiveParser files env).progressLog.Pairwise (· ≤ ·)) ∧
    (∀ (tempDir : String) (files : List FileInfo) (tenv : Nat → TempOutcome),
        (copyToSafeTempDir tempDir files tenv).progressLog
            = (List.range files.length).map (fun i => ((i + 1) * 50) / files.length) ∧
        (copyToSafeTempDir tempDir files tenv).progressLog.Pairwise (· ≤ ·)) := by
  have hdirect : ∀ (files : List FileInfo) (env : Nat → CopyOutcome),
      (saveFilesDirectly files env).progressLog
        = (List.range files.length).map (fun i => ((i + 1) * 100) / files.length) := by
    intro files env
    rw [saveFilesDirectly, saveLoop_progressLog]
    simp [progressPct]
  have htemp : ∀ (tempDir : String) (files : List FileInfo) (tenv : Nat → TempOutcome),
      (copyToSafeTempDir tempDir files tenv).progressLog
        = (List.range files.length).map (fun i => ((i + 1) * 50) / files.length) := by
    intro tempDir files tenv
    rw [copyToSafeTempDir, copyTempLoop_progressLog]
    simp [copyProgressPct]
  refine ⟨fun files env => ⟨hdirect files env, ?_⟩,
    fun files env => ⟨hdirect files env, ?_⟩,
    fun tempDir files tenv => ⟨htemp tempDir files tenv, ?_⟩⟩
  · rw [hdirect files env]
    exact pairwise_le_map_range _ _ (fun i j hij =>
      Nat.div_le_div_right (Nat.mul_le_mul_right 100 (by omega)))
  · rw [show saveFilesWithArchiveParser files env = saveFilesDirectly files env from rfl,
      hdirect files env]
    exact pairwise_le_map_range _ _ (fun i j hij =>
      Nat.div_le_div_right (Nat.mul_le_mul_right 100 (by omega)))
  · rw [htemp tempDir files tenv]
    exact pairwise_le_map_range _ _ (fun i j hij =>
      Nat.div_le_div_right (Nat.mul_le_mul_right 50 (by omega)))

/-- Claim C10: `SaveThread.__init__` classifies the whole batch from its first
entry only: `is_archive` holds exactly when the first entry's path (with
backslashes normalised) contains the substring `archive_extract_`; the tail of
the list has no influence; and the guard that routes the run into the
safe-temp-dir copy is exactly this flag (conjoined with the temp directory
having been created). -/
theorem c10_first_entry_classification (f : FileInfo) (rest rest' : List FileInfo) :
    saveThreadIsArchive (f :: rest) = strContainsSub (pyReplaceBS f.path) "archive_extract_" ∧
    saveThreadIsArchive (f :: rest) = saveThreadIsArchive (f :: rest') ∧
    (∀ tempDirOk : Bool, performsTempCopy (f :: rest) tempDirOk
        = (strContainsSub (pyReplaceBS f.path) "archive_extract_" && tempDirOk)) :=
  ⟨rfl, rfl, fun _ => rfl⟩

/-- Counterexample to C5 as stated: the first template returns one row, but
its identifier does not resolve to a file, so the loop does not stop there —
the second template is attempted and its results are the ones used (the
returned attempt count is 2, not 1). -/
theorem c5_counterexample :
    tryTemplates (fun i => if i = 2 then some "p2" else none)
        [.ok [⟨1, some "a", none⟩], .ok [⟨2, some "b", none⟩]]
      = ([⟨2, "b", "p2", none⟩], 2) ∧
    ([(⟨1, some "a", none⟩ : DbRow)] : List DbRow) ≠ [] := by
  exact ⟨by decide, by decide⟩

/-- Claim C5 (amended): the ordering engine tries its query templates in
order and stops at the first template that executes successfully and yields
at least one row whose identifier resolves to an actual file; templates that
fail, or all of whose rows fail to resolve, are passed over, and no template
after the winning one is attempted. -/
theorem c5_amended_first_resolvable_wins (resolve : Nat → Option String)
    (qs₁ qs₂ : List QueryResult) (rows : List DbRow)
    (h₁ : ∀ q ∈ qs₁, q = .err ∨ ∃ rs, q = .ok rs ∧ processRows resolve rs = [])
    (h₂ : processRows resolve rows ≠ []) :
    tryTemplates resolve (qs₁ ++ .ok rows :: qs₂)
      = (processRows resolve rows, qs₁.length + 1) := by
  induction qs₁ with
  | nil =>
      rw [List.nil_append, tryTemplates]
      simp [List.isEmpty_iff, h₂]
  | cons q rest ih =>
      have hrest : ∀ q' ∈ rest, q' = .err ∨ ∃ rs, q' = .ok rs ∧ processRows resolve rs = [] :=
        fun q' hq' => h₁ q' (by simp [hq'])
      rcases h₁ q (by simp) with rfl | ⟨rs, rfl, hrs⟩
      · rw [List.cons_append, tryTemplates, ih hrest]
        simp
      · rw [List.cons_append, tryTemplates]
        simp only [List.isEmpty_iff, hrs, if_pos]
        rw [ih hrest]
        simp

/-- Witness for the amended C5: a failing template and a template whose row
does not resolve are passed over; the third template wins with its resolved
row, and the fourth is not attempted. -/
theorem c5_witness :
    tryTemplates (fun i => if i = 7 then some "pp" else none)
        [.err, .ok [⟨1, some "x", none⟩], .ok [⟨7, some "y", some 3⟩], .ok [⟨9, none, none⟩]]
      = ([⟨7, "y", "pp", some 3⟩], 3) := by
  have h := c5_amended_first_resolvable_wins (fun i => if i = 7 then some "pp" else none)
    [.err, .ok [⟨1, some "x", none⟩]] [.ok [⟨9, none, none⟩]] [⟨7, some "y", some 3⟩]
    (by
      intro q hq
      simp only [List.mem_cons, List.mem_singleton, List.not_mem_nil, or_false] at hq
      rcases hq with rfl | rfl
      · exact Or.inl rfl
      · exact Or.inr ⟨[⟨1, some "x", none⟩], rfl, by decide⟩)
    (by decide)
  exact h.trans (by decide)

/-- Counterexample to C6 as stated: a file named with a `.zip` extension is
accepted without any header check, so a magic header that does not match the
ZIP signature does not raise `UnsupportedFormatError`. -/
theorem c6_counterexample :
    archiveParserInit true "evil.zip" (some [0, 0, 0, 0]) = .ok "zip" ∧
    headerIsZip (some [0, 0, 0, 0]) = false :=
  ⟨rfl, rfl⟩

/-- Claim C6 (amended): opening the extractor raises `NotFoundError` exactly
when the path does not exist; `UnsupportedFormatError` is raised exactly when
the path exists, its lowercased extension is not `.zip`, and the leading
bytes do not carry the ZIP signature (or cannot be read) — a `.zip` extension
is accepted without a header check. -/
theorem c6_amended_error_conditions (pathExists : Bool) (p : String)
    (content : Option (List Nat)) :
    (archiveParserInit pathExists p content = .error .notFound ↔ pathExists = false) ∧
    (archiveParserInit pathExists p content = .error .unsupportedFormat
        ↔ (pathExists = true ∧ pyLower (pySplitext p).2 ≠ ".zip" ∧
            headerIsZip content = false)) := by
  cases pathExists with
  | false => simp [archiveParserInit]
  | true =>
      by_cases hext : pyLower (pySplitext p).2 = ".zip"
      · simp [archiveParserInit, detectArchiveType, hext]
      · by_cases hh : headerIsZip content = true
        · simp [archiveParserInit, detectArchiveType, hext, hh]
        · simp [archiveParserInit, detectArchiveType, hext, hh]

/-- C7, evaluated at the failing input: two filesystem-discovered files share
one modification time (100 percent ≥ 80 percent), yet discovery returns them
in mtime order only (`[b_2.jpg, a_1.jpg]`) because `_apply_smart_sorting`
exits at its first strategy — the filesystem branch stores the mtime in
`sort_key`, which the strategy-1 non-null check mistakes for a database key —
while the specified re-sort by (mtime, numeric token) would return
`[a_1.jpg, b_2.jpg]`. -/
theorem c7_dead_tiebreak_eval :
    (fsDiscover (fun _ => "h") (fun _ => some 0)
        [⟨"b_2.jpg", "pb", 5⟩, ⟨"a_1.jpg", "pa", 5⟩]).map (fun e => e.name)
      = ["b_2.jpg", "a_1.jpg"] ∧
    (specSmartResort ((List.insertionSort fsMtimeRel
        [(⟨"b_2.jpg", "pb", 5⟩ : FsFile), ⟨"a_1.jpg", "pa", 5⟩]).map
          (fun f => PyMediaEntry.mk "h" f.name f.path (some f.mtime) none))).map
        (fun e => e.name)
      = ["a_1.jpg", "b_2.jpg"] ∧
    ([(⟨"b_2.jpg", "pb", 5⟩ : FsFile), ⟨"a_1.jpg", "pa", 5⟩].map
        (fun f => f.mtime)) = [5, 5] := by
  exact ⟨by decide, by decide, by decide⟩

/-- Counterexample to C8 as stated: the sentinel for a missing token is
999999, so a file whose extracted token exceeds it (`c_1000000.jpg`, token
1000000) sorts *after* the token-less `b.jpg` — a file without a token does
not sort after all files with one. -/
theorem c8_counterexample :
    (archiveFindMedia (fun _ => "h")
        [⟨"b.jpg", "p1", 0⟩, ⟨"c_1000000.jpg", "p2", 0⟩]).map (fun e => (e.name, e.sortKey))
      = [("b.jpg", 999999), ("c_1000000.jpg", 1000000)] ∧
    archSortNumberAux "b.jpg".data = none ∧
    archSortNumberAux "c_1000000.jpg".data = some 1000000 := by
  exact ⟨by decide, by decide, by decide⟩

/-- Claim C8 (amended): archive discovery returns the media files ordered
ascending by the pair (`sort_key`, filename), where `sort_key` is the first
run of digits following an underscore and the sentinel 999999 when absent;
the result is a permutation of the discovered files.  Hence files without a
token sort after all files whose token is below the sentinel, but a file with
a token ≥ 999999 can tie with or follow them. -/
theorem c8_amended_archive_order (hash : String → String) (walked : List ArchFile) :
    ((archiveFindMedia hash walked).map (fun e => (e.name, e.path))).Perm
        (walked.map (fun f => (f.name, f.path))) ∧
    (archiveFindMedia hash walked).Pairwise
        (fun a b => a.sortKey < b.sortKey ∨ (a.sortKey = b.sortKey ∧ a.name ≤ b.name)) ∧
    (∀ e ∈ archiveFindMedia hash walked, e.sortKey = archSortNumber e.name) := by
  refine ⟨?_, ?_, ?_⟩
  · rw [archiveFindMedia, List.map_map]
    exact (List.perm_insertionSort archRel walked).map _
  · rw [archiveFindMedia]
    exact List.Pairwise.map _ (fun a b hab => hab) (List.sorted_insertionSort archRel walked)
  · intro e he
    rw [archiveFindMedia] at he
    obtain ⟨f, _, rfl⟩ := List.mem_map.1 he
    rfl

/-- Counterexample to C9 as stated: a root with a subdirectory (`data`) and a
direct file (`a.jpg`), on which every earlier strategy fails, is *not* a flat
directory, yet `_find_favorites_path` accepts the root itself instead of
raising `NotFoundError` — the last resort only checks for at least one direct
file and ignores subdirectories. -/
theorem c9_counterexample :
    findFavoritesPath "C:/cache" [.dir "data" [], .file "a.jpg"] [] false = .ok .root ∧
    isDirE (Entry.dir "data" []) = true := by
  refine ⟨?_, rfl⟩
  simp [findFavoritesPath, favBaseStep, fixedPathsStep, walkStep, wxidStep,
    lastResortStep, completionStep, findFavWalk, findFavWalkChildren, favDirAtLevel,
    favMatch, fixedSubpaths, existsPath, entryName, isFileE, pyBasename, pyLower,
    pyCharLower, strStarts, listStarts]

/-- Claim C9 (amended): when every earlier strategy fails, `resolve` accepts
the input root as a last resort exactly when the root directly contains at
least one file — subdirectories may also be present; if additionally the root
has no direct files and the `FileStorage/Fav` path completion does not apply,
it raises `NotFoundError`. -/
theorem c9_amended_last_resort (cachePath : String) (es parentEs : List Entry)
    (completedExists : Bool)
    (h₁ : favBaseStep cachePath parentEs = none)
    (h₂ : fixedPathsStep es = none)
    (h₃ : walkStep es = none)
    (h₄ : wxidStep es = none)
    (h₅ : completionStep cachePath completedExists = none) :
    findFavoritesPath cachePath es parentEs completedExists
      = if es.any isFileE then .ok .root else .error () := by
  by_cases hany : es.any isFileE = true
  · simp [findFavoritesPath, h₁, h₂, h₃, h₄, h₅, lastResortStep, hany]
  · simp [findFavoritesPath, h₁, h₂, h₃, h₄, h₅, lastResortStep, hany]

/-- Witness for the amended C9: a root containing only a subdirectory (no
direct files), on which every strategy fails, makes `resolve` raise
`NotFoundError`. -/
theorem c9_witness :
    findFavoritesPath "C:/cache" [.dir "data" []] [] false = .error () := by
  have h := c9_amended_last_resort "C:/cache" [.dir "data" []] [] false
    (by rfl)
    (by decide)
    (by simp [walkStep, findFavWalk, findFavWalkChildren, favDirAtLevel, favMatch,
      pyLower, pyCharLower, strStarts, listStarts])
    (by simp [wxidStep, findFavWalk, findFavWalkChildren, favDirAtLevel, favMatch,
      pyLower, pyCharLower, strStarts, listStarts, existsPath, wxidSubpaths])
    (by decide)
  exact h.trans (by rfl)

end WxCache
